import Mathlib

/-!
Verification of the Remit_agent SQL pipeline.

This file is a shallow embedding of the core of the repository:
  - src/Remit_agent/tools/tools.py (check_relevance, convert_to_sql,
    execute_sql_query, generate_human_readable)
  - src/Remit_agent/tools/tool_monitoring.py (ToolMonitor)
  - src/Remit_agent/database.py (get_db)
  - src/Remit_agent/core/sql_agent.py (SQLAgent nodes, workflow and run)

External effects (the language-model calls, the JSON parse of a model reply,
and the database driver) are modelled as oracle inputs collected in an Env
structure: each oracle value is the outcome the external call would produce.
Python dictionaries are modelled as ordered association lists with the exact
update/lookup semantics of dict (insertion order kept, updates replace in
place, later writes win). Exceptions are modelled with Except. Wall-clock
timestamps and durations of the monitor are outside the embedding.
-/

namespace RemitAgent

/-- JSON-like values, the payloads that flow through the pipeline state and
the monitor log (the image of Python objects produced by json.loads). -/
inductive JValue where
  | null : JValue
  | bool (b : Bool) : JValue
  | str (s : String) : JValue
  | num (n : Int) : JValue
  | arr (xs : List JValue) : JValue
  | obj (fields : List (String × JValue)) : JValue

/-- A Python dict with string keys, as an ordered association list. -/
abbrev Dict := List (String × JValue)

/-- Python d[k] / d.get(k): first binding of the key (dicts built by the
operations below keep keys unique, so first = only). -/
def dictGet (d : Dict) (k : String) : Option JValue :=
  (d.find? (fun p => p.1 == k)).map (fun p => p.2)

/-- Python d.get(k, v): lookup with a default. -/
def dictGetD (d : Dict) (k : String) (v : JValue) : JValue :=
  (dictGet d k).getD v

/-- Python (k in d). -/
def dictHasKey (d : Dict) (k : String) : Bool :=
  d.any (fun p => p.1 == k)

/-- Python d[k] = v: replace the first binding of the key in place, or
append a new binding at the end (insertion-order semantics of dict). -/
def dictSet : Dict → String → JValue → Dict
  | [], k, v => [(k, v)]
  | p :: d, k, v => if p.1 == k then (k, v) :: d else p :: dictSet d k v

/-- Python d.update(e): fold the bindings of e into d, left to right. -/
def dictUpdate (d : Dict) (e : Dict) : Dict :=
  e.foldl (fun acc p => dictSet acc p.1 p.2) d

/-- Python truthiness (bool(v)) for the modelled values. -/
def truthy : JValue → Bool
  | .null => false
  | .bool b => b
  | .str s => s != ""
  | .num n => n != 0
  | .arr xs => !xs.isEmpty
  | .obj fs => !fs.isEmpty

/-- Whether a value is a Python dict (isinstance(v, dict)). -/
def isObj : JValue → Bool
  | .obj _ => true
  | _ => false

/-- Option.orElse specialised to the lookup results used below. -/
def optOr (a b : Option JValue) : Option JValue :=
  match a with
  | some v => some v
  | none => b

/-- Occurrence of one character list inside another: some suffix of the
haystack has the needle as a prefix. -/
def containsSub : List Char → List Char → Bool
  | [], needle => needle.isEmpty
  | h :: t, needle => List.isPrefixOf needle (h :: t) || containsSub t needle

/-- Substring test (Python needle in hay), on the character lists of the
two strings. -/
def containsStr (hay needle : String) : Bool :=
  containsSub hay.toList needle.toList

/-- Python str.strip(): drop whitespace from both ends. -/
def trimChars (l : List Char) : List Char :=
  ((l.dropWhile Char.isWhitespace).reverse.dropWhile Char.isWhitespace).reverse

/-- tools.py lines 45-50 and 67-74: the default breakdown mapping. -/
def defaultBreakdown : Dict :=
  [("intent", .str "unknown"),
   ("entities", .arr []),
   ("conditions", .arr []),
   ("timeframe", .str "none")]

/-- tools.py: the default relevance response with a given explanation. -/
def defaultResponseWith (explanation : String) : Dict :=
  [("relevant", .bool false),
   ("tables", .arr []),
   ("breakdown", .obj defaultBreakdown),
   ("explanation", .str explanation)]

/-- tools.py lines 42-52: default_response inside check_relevance. -/
def default_response : Dict := defaultResponseWith "No explanation provided"

/-- Outcome of the model call followed by json.loads inside check_relevance:
Except.error e is the chain invocation raising e; Except.ok none is a reply
that fails JSON parsing (json.JSONDecodeError); Except.ok (some v) is a
reply parsed to the value v. -/
abbrev ModelParse := Except String (Option JValue)

/-- tools.py lines 24-90: check_relevance. The LLM call and the JSON parse
are the oracle argument; everything after the parse is translated directly:
a parsed dict is merged onto default_response with dict.update, a parsed
non-dict returns default_response unchanged, a parse failure returns the
defaults with explanation "Failed to parse response", and any raised error
returns the defaults with explanation "Error: " plus the message. -/
def check_relevance (question : String) (outcome : ModelParse) : Dict :=
  match outcome with
  | .error e => defaultResponseWith ("Error: " ++ e)
  | .ok none => defaultResponseWith "Failed to parse response"
  | .ok (some v) =>
    match v with
    | .obj fields => dictUpdate default_response fields
    | _ => default_response

/-- tools.py lines 92-114: convert_to_sql. The schema retrieval and the LLM
chain are the oracle; a raised error is caught and returns None, a reply is
returned verbatim. The question and context only feed the prompt. -/
def convert_to_sql (question : String) (context : Dict)
    (outcome : Except String String) : Option String :=
  match outcome with
  | .ok result => some result
  | .error _ => none

/-- Counters observing the database session of one executor call: how often
rollback, commit and close ran (database.py get_db and the session calls
made inside execute_sql_query). -/
structure SessionLog where
  rollbacks : Nat := 0
  commits : Nat := 0
  closes : Nat := 0
  deriving Repr, DecidableEq

/-- database.py lines 50-61: get_db. The body runs with the fresh session;
if it finishes normally the session is only closed; if an exception escapes
the body, the session is rolled back, the error logged, the exception
re-raised, and the session closed by the finally block. -/
def get_db {α : Type} (body : SessionLog → Except String α × SessionLog)
    (sess : SessionLog) : Except String α × SessionLog :=
  match body sess with
  | (Except.ok a, s) => (Except.ok a, {s with closes := s.closes + 1})
  | (Except.error e, s) =>
    (Except.error e, {s with rollbacks := s.rollbacks + 1, closes := s.closes + 1})

/-- The dict returned by execute_sql_query: keys that a branch does not set
are absent, modelled as none (the caller reads them with dict.get). -/
structure ExecResult where
  success : Bool
  rows : Option (List Dict) := none
  columns : Option (List String) := none
  error : Option String := none

/-- tools.py line 131: dict(zip(columns, row)). Pairs are inserted left to
right, so a duplicate column name keeps its first position and its value is
overwritten by the later occurrence (last write wins). -/
def rowDict (columns : List String) (row : List JValue) : Dict :=
  dictUpdate [] (columns.zip row)

/-- tools.py line 126: query.lower().strip().startswith("select"),
translated to the character list of the query (lowercase each character,
strip whitespace from both ends, test the prefix). -/
def isSelectQuery (query : String) : Bool :=
  List.isPrefixOf "select".toList (trimChars (query.toList.map Char.toLower))

/-- Oracle outcomes for the external calls made during one pipeline run:
relevanceOutcome is the relevance chain call plus JSON parse, sqlOutcome the
SQL-conversion chain call, dbExec the db.execute of the statement together
with fetchall/keys (columns and raw rows), dbCommit the db.commit for a
non-select statement, formatOutcome the formatting chain call, and
invokeFault an exception escaping self.workflow.invoke itself (none when
the graph runs to completion). -/
structure Env where
  relevanceOutcome : ModelParse
  sqlOutcome : Except String String
  dbExec : Except String (List String × List (List JValue))
  dbCommit : Except String Unit
  formatOutcome : Except String String
  invokeFault : Option String

/-- tools.py lines 116-148: execute_sql_query. The whole body runs inside
with get_db(); the inner try catches every exception from execute, fetch
and commit and turns it into a success=False dict, so the body handed to
get_db never raises. On the select path the rows are materialised with
dict(zip(columns, row)) in order; otherwise the transaction is committed. -/
def execute_sql_query (query : String) (env : Env) (sess : SessionLog) :
    Except String ExecResult × SessionLog :=
  get_db (fun s =>
    match env.dbExec with
    | .error e => (Except.ok {success := false, error := some e}, s)
    | .ok (cols, rows) =>
      if isSelectQuery query then
        (Except.ok {success := true, rows := some (rows.map (rowDict cols)),
                    columns := some cols}, s)
      else
        match env.dbCommit with
        | .ok _ => (Except.ok {success := true}, {s with commits := s.commits + 1})
        | .error e => (Except.ok {success := false, error := some e}, s)) sess

/-- The second argument of generate_human_readable, built by the
orchestrator at sql_agent.py lines 144-149. -/
structure FormatCtx where
  rows : List Dict
  columns : List String
  success : Bool
  question : String

/-- tools.py lines 150-168: generate_human_readable. The LLM chain is the
oracle; its reply is returned verbatim, a raised error is caught and turned
into the literal fallback string. -/
def generate_human_readable (sql : String) (result : FormatCtx)
    (outcome : Except String String) : String :=
  match outcome with
  | .ok response => response
  | .error e => "Error processing results: " ++ e

/-- tool_monitoring.py lines 11-18: one audit record. The wall-clock
timestamp and duration fields are outside the embedding. -/
structure ToolInvocation where
  tool_name : String
  inputs : Dict
  outputs : JValue

/-- tool_monitoring.py lines 56-68: ToolMonitor.__call__, the wrapper
around a tool. It receives positional args and keyword kwargs, runs the
wrapped function on them, and appends one record whose inputs field is the
kwargs mapping alone; on success the outputs field is the return value and
the value is returned, on an exception the outputs field is the string
"Error: " plus the message and the exception is re-raised. -/
def toolMonitorCall (tool_name : String) (args : List JValue) (kwargs : Dict)
    (func : List JValue → Dict → Except String JValue)
    (log : List ToolInvocation) : Except String JValue × List ToolInvocation :=
  match func args kwargs with
  | .ok v =>
    (.ok v, log ++ [{tool_name := tool_name, inputs := kwargs, outputs := v}])
  | .error e =>
    (.error e, log ++ [{tool_name := tool_name, inputs := kwargs,
                        outputs := .str ("Error: " ++ e)}])

/-- The state dict threaded through the workflow (sql_agent.py lines
193-202 list every key of the initial state; nodes only overlay fields). -/
structure PipelineState where
  question : String
  relevance_result : Option Dict
  sql_query : String
  query_result : String
  query_rows : List Dict
  columns : List String
  attempts : Nat
  sql_error : Bool

/-- sql_agent.py lines 193-202: the initial state built by run. -/
def initial_state (question : String) : PipelineState :=
  {question := question, relevance_result := none, sql_query := "",
   query_result := "", query_rows := [], columns := [], attempts := 0,
   sql_error := false}

/-- Encoding of the Optional[str] return of convert_to_sql as a value for
the monitor log. -/
def encodeOptStr : Option String → JValue
  | none => .null
  | some s => .str s

/-- Encoding of an execute_sql_query result dict for the monitor log. -/
def encodeExecResult (r : ExecResult) : JValue :=
  .obj ([("success", .bool r.success)]
    ++ (match r.rows with
        | some rs => [("rows", .arr (rs.map JValue.obj))]
        | none => [])
    ++ (match r.columns with
        | some cs => [("columns", .arr (cs.map JValue.str))]
        | none => [])
    ++ (match r.error with
        | some e => [("error", .str e)]
        | none => []))

/-- Python truthiness of the Optional[str] produced by convert_to_sql
(None and the empty string are falsy). -/
def pyStrTruthy : Option String → Bool
  | none => false
  | some s => s != ""

/-- sql_agent.py lines 50-74: the check_relevance node. It calls the
monitored tool check_relevance(state["question"]) positionally and overlays
relevance_result. The tool catches every exception internally, so the node
except branch at lines 58-74 is unreachable and the node always takes the
success path. -/
def check_relevance_node (env : Env) (s : PipelineState)
    (log : List ToolInvocation) : PipelineState × List ToolInvocation :=
  let rr := check_relevance s.question env.relevanceOutcome
  let mon := toolMonitorCall "check_relevance" [.str s.question] []
    (fun _ _ => .ok (.obj rr)) log
  ({s with relevance_result := some rr}, mon.2)

/-- sql_agent.py line 176: the conditional edge out of check_relevance,
Python truthiness of state["relevance_result"].get("relevant", False).
After the entry node relevance_result is always a dict; the none branch is
unreachable. -/
def relevance_condition (s : PipelineState) : Bool :=
  match s.relevance_result with
  | some rr => truthy (dictGetD rr "relevant" (.bool false))
  | none => false

/-- sql_agent.py lines 76-98: the convert_to_sql node. It calls the
monitored tool positionally; sql_query becomes the result when truthy and
the empty string otherwise, and sql_error is the negated truthiness of the
result. The tool catches every exception internally, so the except branch
at lines 90-98 is unreachable. -/
def convert_to_sql_node (env : Env) (s : PipelineState)
    (log : List ToolInvocation) : PipelineState × List ToolInvocation :=
  let rr := s.relevance_result.getD []
  let sql := convert_to_sql s.question rr env.sqlOutcome
  let mon := toolMonitorCall "convert_to_sql" [.str s.question, .obj rr] []
    (fun _ _ => .ok (encodeOptStr sql)) log
  ({s with sql_query := if pyStrTruthy sql then sql.getD "" else "",
           sql_error := !pyStrTruthy sql}, mon.2)

/-- sql_agent.py lines 100-137: the execute_sql node. An empty sql_query is
not executed at all (lines 102-108); otherwise the monitored executor runs
and the state is overlaid from its result dict, with result.get defaults
exactly as written at lines 113-128. The final match arm mirrors the
except at lines 130-137, reached only if the executor itself raised (the
monitor then already logged the error record and re-raised). -/
def execute_sql_node (env : Env) (s : PipelineState)
    (log : List ToolInvocation) (sess : SessionLog) :
    PipelineState × List ToolInvocation × SessionLog :=
  if s.sql_query == "" then
    ({s with sql_error := true, query_result := "Failed to generate SQL query"},
     log, sess)
  else
    match execute_sql_query s.sql_query env sess with
    | (Except.ok r, sess1) =>
      let mon := toolMonitorCall "execute_sql_query" [.str s.sql_query] []
        (fun _ _ => .ok (encodeExecResult r)) log
      if !r.success then
        ({s with sql_error := true,
                 query_result :=
                   "Error: " ++ r.error.getD "Unknown error during query execution"},
         mon.2, sess1)
      else
        ({s with sql_error := false, query_rows := r.rows.getD [],
                 columns := r.columns.getD [],
                 query_result := "Query executed successfully"},
         mon.2, sess1)
    | (Except.error e, sess1) =>
      let mon := toolMonitorCall "execute_sql_query" [.str s.sql_query] []
        (fun _ _ => .error e) log
      ({s with sql_error := true, query_result := "Error executing SQL: " ++ e},
       mon.2, sess1)

/-- sql_agent.py lines 144-149: the context dict handed to the formatter,
built from the accumulated state. -/
def formatterContext (s : PipelineState) : FormatCtx :=
  {rows := s.query_rows, columns := s.columns, success := !s.sql_error,
   question := s.question}

/-- sql_agent.py lines 139-158: the generate_human_readable node. It calls
the monitored formatter positionally and overlays query_result with the
response. The tool catches every exception internally, so the except at
lines 155-158 is unreachable. -/
def generate_node (env : Env) (s : PipelineState)
    (log : List ToolInvocation) : PipelineState × List ToolInvocation :=
  let response := generate_human_readable s.sql_query (formatterContext s)
    env.formatOutcome
  let mon := toolMonitorCall "generate_human_readable" [.str s.sql_query] []
    (fun _ _ => .ok (.str response)) log
  ({s with query_result := response}, mon.2)

/-- sql_agent.py lines 160-187: the compiled workflow. Entry point
check_relevance; the conditional edge continues to convert_to_sql when the
relevance flag is truthy and ends the graph otherwise; then the linear
edges convert_to_sql -> execute_sql -> generate_human_readable -> END. -/
def workflow_invoke (env : Env) (s0 : PipelineState)
    (log : List ToolInvocation) (sess : SessionLog) :
    PipelineState × List ToolInvocation × SessionLog :=
  let c := check_relevance_node env s0 log
  if relevance_condition c.1 then
    let conv := convert_to_sql_node env c.1 c.2
    let ex := execute_sql_node env conv.1 conv.2 sess
    let gen := generate_node env ex.1 ex.2.1
    (gen.1, gen.2, ex.2.2)
  else
    (c.1, c.2, sess)

/-- The dict returned by SQLAgent.run: result.get("query_result", ...),
result.get("relevance_result") and result.get("sql_query") on the final
state (all three keys are always present in the state). -/
structure RunResult where
  query_result : String
  relevance_result : Option Dict
  sql_query : Option String

/-- sql_agent.py lines 189-226: SQLAgent.run. A fault escaping the
workflow invocation is caught by the outer except and converted into the
uniform error payload; otherwise the three keys are projected out of the
final state dict. The isinstance(result, dict) guard always holds for the
compiled graph, so the unexpected-type branch at lines 212-218 is
unreachable. -/
def run (env : Env) (question : String) (log : List ToolInvocation)
    (sess : SessionLog) : RunResult × List ToolInvocation × SessionLog :=
  match env.invokeFault with
  | some e =>
    ({query_result := "Error processing request: " ++ e,
      relevance_result := none, sql_query := none}, log, sess)
  | none =>
    let r := workflow_invoke env (initial_state question) log sess
    ({query_result := r.1.query_result,
      relevance_result := r.1.relevance_result,
      sql_query := some r.1.sql_query}, r.2.1, r.2.2)

/-- The state after the check_relevance node in a run (log-independent:
nodes only append to the log). -/
def state_after_check (env : Env) (q : String) : PipelineState :=
  (check_relevance_node env (initial_state q) []).1

/-- The state after the convert_to_sql node in a run on the relevant
branch. -/
def state_after_convert (env : Env) (q : String) : PipelineState :=
  (convert_to_sql_node env (state_after_check env q) []).1

/-- The state after the execute_sql node in a run on the relevant
branch. -/
def state_after_execute (env : Env) (q : String) (sess : SessionLog) :
    PipelineState :=
  (execute_sql_node env (state_after_convert env q) [] sess).1

/-- The context dict the orchestrator passes to the response formatter in a
run on the relevant branch. -/
def pipelineFormatterInput (env : Env) (q : String) (sess : SessionLog) :
    FormatCtx :=
  formatterContext (state_after_execute env q sess)

/-- Shallow text search over a formatter context: does the given needle
occur in the question, a column name, a row key or a row string value. -/
def ctxMentions (c : FormatCtx) (s : String) : Bool :=
  containsStr c.question s
  || c.columns.any (fun col => containsStr col s)
  || c.rows.any (fun row =>
      row.any (fun p =>
        containsStr p.1 s
        || (match p.2 with
            | .str t => containsStr t s
            | _ => false)))

theorem dictGet_nil (k : String) : dictGet [] k = none := rfl

theorem dictGet_cons (p : String × JValue) (d : Dict) (k : String) :
    dictGet (p :: d) k = if p.1 = k then some p.2 else dictGet d k := by
  by_cases h : p.1 = k
  · simp [dictGet, List.find?, h]
  · have hb : (p.1 == k) = false := beq_eq_false_iff_ne.mpr h
    simp [dictGet, List.find?, hb, h]

theorem dictGet_dictSet (d : Dict) (k1 : String) (v : JValue) (k : String) :
    dictGet (dictSet d k1 v) k = if k1 = k then some v else dictGet d k := by
  induction d with
  | nil => simp [dictSet, dictGet_cons, dictGet_nil]
  | cons p d ih =>
    simp only [dictSet, beq_iff_eq]
    by_cases h1 : p.1 = k1
    · rw [if_pos h1, dictGet_cons, dictGet_cons]
      by_cases h2 : k1 = k
      · rw [if_pos h2, if_pos h2]
      · have h3 : ¬ p.1 = k := fun hc => h2 (h1.symm.trans hc)
        rw [if_neg h2, if_neg h2, if_neg h3]
    · rw [if_neg h1, dictGet_cons, dictGet_cons, ih]
      by_cases h3 : p.1 = k
      · have h2 : ¬ k1 = k := fun hc => h1 (h3.trans hc.symm)
        simp [h2, h3]
      · simp [h3]

theorem optOr_none (b : Option JValue) : optOr none b = b := rfl

theorem optOr_assoc (a b c : Option JValue) :
    optOr (optOr a b) c = optOr a (optOr b c) := by
  cases a <;> rfl

theorem lookup_cons (p : String × JValue) (l : List (String × JValue))
    (k : String) :
    List.lookup k (p :: l) = if k = p.1 then some p.2 else List.lookup k l := by
  by_cases h : k = p.1
  · have hb : (k == p.1) = true := beq_iff_eq.mpr h
    simp [List.lookup, hb, h]
  · have hb : (k == p.1) = false := beq_eq_false_iff_ne.mpr h
    simp [List.lookup, hb, h]

theorem lookup_append (l1 l2 : List (String × JValue)) (k : String) :
    List.lookup k (l1 ++ l2) = optOr (List.lookup k l1) (List.lookup k l2) := by
  induction l1 with
  | nil => rfl
  | cons p l1 ih =>
    by_cases h : k = p.1
    · simp [List.cons_append, lookup_cons, h, optOr]
    · simp [List.cons_append, lookup_cons, h, ih]

theorem dictUpdate_nil (d : Dict) : dictUpdate d [] = d := rfl

theorem dictUpdate_cons (d : Dict) (p : String × JValue) (e : Dict) :
    dictUpdate d (p :: e) = dictUpdate (dictSet d p.1 p.2) e := rfl

/-- Lookup after dict.update: the last binding of the key in the update
argument wins, and a key absent from it falls back to the base dict. -/
theorem dictGet_dictUpdate (e d : Dict) (k : String) :
    dictGet (dictUpdate d e) k = optOr (e.reverse.lookup k) (dictGet d k) := by
  induction e generalizing d with
  | nil => rfl
  | cons p e ih =>
    rw [dictUpdate_cons, ih, List.reverse_cons, lookup_append, optOr_assoc]
    congr 1
    rw [dictGet_dictSet, lookup_cons]
    by_cases h : p.1 = k
    · rw [if_pos h, if_pos h.symm]
      rfl
    · rw [if_neg h, if_neg (fun hc => h (Eq.symm hc))]
      rw [show List.lookup k ([] : List (String × JValue)) = none from rfl, optOr_none]

theorem lookup_none_of_not_mem (l : List (String × JValue)) (k : String)
    (h : ∀ p ∈ l, ¬ p.1 = k) : List.lookup k l = none := by
  induction l with
  | nil => rfl
  | cons p l ih =>
    have hp : ¬ p.1 = k := h p (List.mem_cons_self p l)
    have hk : ¬ k = p.1 := fun hc => hp hc.symm
    rw [lookup_cons, if_neg hk]
    exact ih (fun q hq => h q (List.mem_cons_of_mem p hq))

theorem reverse_lookup_none_of_not_hasKey (d : Dict) (k : String)
    (h : dictHasKey d k = false) : d.reverse.lookup k = none := by
  apply lookup_none_of_not_mem
  intro p hp
  have hp2 : p ∈ d := List.mem_reverse.mp hp
  simp only [dictHasKey, List.any_eq_false] at h
  have hp3 : ¬ (p.1 == k) = true := h p hp2
  exact fun hc => hp3 (beq_iff_eq.mpr hc)

/-- A key absent from the update argument keeps its value from the base
dict. -/
theorem dictGet_dictUpdate_not_hasKey (e d : Dict) (k : String)
    (h : dictHasKey e k = false) :
    dictGet (dictUpdate d e) k = dictGet d k := by
  rw [dictGet_dictUpdate, reverse_lookup_none_of_not_hasKey e k h, optOr_none]

/-- Row materialisation dict(zip(columns, row)): lookup returns the value
of the last occurrence of the column name in the zipped pairs. -/
theorem dictGet_rowDict (columns : List String) (row : List JValue)
    (k : String) :
    dictGet (rowDict columns row) k = (columns.zip row).reverse.lookup k := by
  rw [rowDict, dictGet_dictUpdate, dictGet_nil]
  cases h : (columns.zip row).reverse.lookup k <;> rfl

/-- Claim C9: for every recorded stage call, the invocation recorder
executes the wrapped body and, on success, appends a ToolInvocation whose
outputs equal the return value of the body; on failure, it appends a
ToolInvocation whose outputs are "Error: " plus the failure message and
re-raises the original exception to the caller, never swallowing it
(tool_monitoring.py, ToolMonitor.__call__). -/
theorem C9_recorder_observes (tool_name : String) (args : List JValue)
    (kwargs : Dict) (log : List ToolInvocation) (v : JValue) (e : String) :
    (∀ func : List JValue → Dict → Except String JValue,
      func args kwargs = Except.ok v →
      toolMonitorCall tool_name args kwargs func log
        = (Except.ok v,
           log ++ [{tool_name := tool_name, inputs := kwargs, outputs := v}]))
    ∧ (∀ func : List JValue → Dict → Except String JValue,
      func args kwargs = Except.error e →
      toolMonitorCall tool_name args kwargs func log
        = (Except.error e,
           log ++ [{tool_name := tool_name, inputs := kwargs,
                    outputs := JValue.str ("Error: " ++ e)}])) := by
  constructor
  · intro func h
    simp [toolMonitorCall, h]
  · intro func h
    simp [toolMonitorCall, h]

/-- Witness for C9 at a concrete succeeding body and a concrete failing
body. -/
theorem C9_recorder_observes_witness :
    toolMonitorCall "execute_sql_query" [JValue.str "SELECT 1"] []
        (fun _ _ => Except.ok (JValue.str "done")) []
      = (Except.ok (JValue.str "done"),
         [{tool_name := "execute_sql_query", inputs := [],
           outputs := JValue.str "done"}])
    ∧ toolMonitorCall "execute_sql_query" [JValue.str "SELECT 1"] []
        (fun _ _ => Except.error "timeout") []
      = (Except.error "timeout",
         [{tool_name := "execute_sql_query", inputs := [],
           outputs := JValue.str "Error: timeout"}]) :=
  ⟨(C9_recorder_observes "execute_sql_query" [JValue.str "SELECT 1"] [] []
      (JValue.str "done") "timeout").1 _ rfl,
   (C9_recorder_observes "execute_sql_query" [JValue.str "SELECT 1"] [] []
      (JValue.str "done") "timeout").2 _ rfl⟩

/-- Oracle for the C4 counterexample: the driver raises a syntax error on
execution. -/
def envC4 : Env :=
  {relevanceOutcome := .ok (some (.obj [("relevant", .bool true)])),
   sqlOutcome := .ok "SELECT * FORM remitTransactions",
   dbExec := .error "Incorrect syntax near the keyword FORM",
   dbCommit := .ok (), formatOutcome := .ok "answer", invokeFault := none}

/-- Counterexample to claim C4 as stated: on a failing execution the
session is never rolled back, because execute_sql_query catches the
exception inside the with get_db() body, so the rollback branch of get_db
is never reached. The executor does return success=false with the driver
text and the session is closed exactly once. -/
theorem C4_counterexample :
    execute_sql_query "SELECT * FORM remitTransactions" envC4 {}
      = (Except.ok {success := false,
                    error := some "Incorrect syntax near the keyword FORM"},
         {rollbacks := 0, commits := 0, closes := 1})
    ∧ (execute_sql_query "SELECT * FORM remitTransactions" envC4 {}).2.rollbacks = 0
    ∧ ¬ 0 < (execute_sql_query "SELECT * FORM remitTransactions" envC4 {}).2.rollbacks := by
  refine ⟨rfl, rfl, by decide⟩

/-- Claim C4 as amended: for every SQL statement whose execution raises an
error, the query executor returns success=false carrying the driver error
text, and the session is released exactly once on exit; no rollback is
performed, because the error is caught inside the session scope before it
can reach the rollback handler of get_db. -/
theorem C4_amended_no_rollback (query : String) (env : Env)
    (sess : SessionLog) (e : String) (hexec : env.dbExec = Except.error e) :
    execute_sql_query query env sess
      = (Except.ok {success := false, error := some e},
         {sess with closes := sess.closes + 1}) := by
  simp [execute_sql_query, get_db, hexec]

/-- Witness for the amended C4 at the concrete failing statement. -/
theorem C4_amended_no_rollback_witness :
    envC4.dbExec = Except.error "Incorrect syntax near the keyword FORM"
    ∧ execute_sql_query "SELECT * FORM remitTransactions" envC4 {}
      = (Except.ok {success := false,
                    error := some "Incorrect syntax near the keyword FORM"},
         {rollbacks := 0, commits := 0, closes := 1}) :=
  ⟨rfl, C4_amended_no_rollback "SELECT * FORM remitTransactions" envC4 {}
      "Incorrect syntax near the keyword FORM" rfl⟩

/-- Claim C8: for every non-empty SQL statement whose execution the driver
answers (dbExec succeeds, and the commit succeeds on the non-select path),
the executor dispatches on query.lower().strip().startswith("select") (the
source realisation of: the first keyword is select, case-insensitively).
On the select path it returns success=true with the column list and the
rows materialised in order as dict(zip(columns, row)), where a duplicate
column name within a row is last-write-wins; otherwise it commits the
transaction once and returns success=true with no rows. -/
theorem C8_executor_dispatch (query : String) (env : Env) (sess : SessionLog)
    (cols : List String) (rows : List (List JValue))
    (hq : ¬ query = "") (hexec : env.dbExec = Except.ok (cols, rows))
    (hcommit : env.dbCommit = Except.ok ()) :
    (isSelectQuery query = true →
      execute_sql_query query env sess
        = (Except.ok {success := true, rows := some (rows.map (rowDict cols)),
                      columns := some cols},
           {sess with closes := sess.closes + 1}))
    ∧ (isSelectQuery query = false →
      execute_sql_query query env sess
        = (Except.ok {success := true},
           {sess with commits := sess.commits + 1, closes := sess.closes + 1}))
    ∧ (∀ row k, dictGet (rowDict cols row) k = (cols.zip row).reverse.lookup k) := by
  refine ⟨?_, ?_, ?_⟩
  · intro hsel
    simp [execute_sql_query, get_db, hexec, hsel]
  · intro hsel
    simp [execute_sql_query, get_db, hexec, hsel, hcommit]
  · intro row k
    exact dictGet_rowDict cols row k

/-- Oracle for the C8 witness: a select whose result set has a duplicate
column name. -/
def envC8 : Env :=
  {relevanceOutcome := .ok (some (.obj [("relevant", .bool true)])),
   sqlOutcome := .ok "SELECT a, a FROM t",
   dbExec := .ok (["a", "a"], [[.num 1, .num 2]]),
   dbCommit := .ok (), formatOutcome := .ok "answer", invokeFault := none}

/-- Witness for C8 at a concrete select with a duplicate column: the row
mapping keeps the value of the last occurrence. -/
theorem C8_executor_dispatch_witness :
    isSelectQuery "SELECT a, a FROM t" = true
    ∧ execute_sql_query "SELECT a, a FROM t" envC8 {}
      = (Except.ok {success := true,
                    rows := some [[("a", JValue.num 2)]],
                    columns := some ["a", "a"]},
         {rollbacks := 0, commits := 0, closes := 1})
    ∧ dictGet (rowDict ["a", "a"] [JValue.num 1, JValue.num 2]) "a"
      = some (JValue.num 2) :=
  ⟨by decide,
   (C8_executor_dispatch "SELECT a, a FROM t" envC8 {} ["a", "a"]
      [[JValue.num 1, JValue.num 2]] (by decide) rfl rfl).1 (by decide),
   ((C8_executor_dispatch "SELECT a, a FROM t" envC8 {} ["a", "a"]
      [[JValue.num 1, JValue.num 2]] (by decide) rfl rfl).2.2
      [JValue.num 1, JValue.num 2] "a").trans rfl⟩

/-- Claim C2: run never raises and always yields the three keys
query_result, relevance_result and sql_query. A fault escaping the
workflow invocation is converted at the outermost boundary into the
uniform error payload; otherwise the three keys are projected from the
final workflow state (sql_agent.py run, lines 189-226). The Lean model of
run is a total function, which is the shallow form of: run returns on
every input. -/
theorem C2_run_error_boundary (env : Env) (q : String)
    (log : List ToolInvocation) (sess : SessionLog) :
    (∀ e, env.invokeFault = some e →
      run env q log sess
        = ({query_result := "Error processing request: " ++ e,
            relevance_result := none, sql_query := none}, log, sess))
    ∧ (env.invokeFault = none →
      run env q log sess
        = ({query_result :=
              (workflow_invoke env (initial_state q) log sess).1.query_result,
            relevance_result :=
              (workflow_invoke env (initial_state q) log sess).1.relevance_result,
            sql_query :=
              some (workflow_invoke env (initial_state q) log sess).1.sql_query},
           (workflow_invoke env (initial_state q) log sess).2.1,
           (workflow_invoke env (initial_state q) log sess).2.2)) := by
  constructor
  · intro e h
    simp [run, h]
  · intro h
    simp [run, h]

/-- Oracle for the C2 witness: the graph invocation itself fails. -/
def envC2 : Env :=
  {relevanceOutcome := .ok none, sqlOutcome := .ok "", dbExec := .ok ([], []),
   dbCommit := .ok (), formatOutcome := .ok "",
   invokeFault := some "Connection refused"}

/-- Witness for C2 at a concrete escaping fault. -/
theorem C2_run_error_boundary_witness :
    envC2.invokeFault = some "Connection refused"
    ∧ run envC2 "show customers" [] {}
      = ({query_result := "Error processing request: Connection refused",
          relevance_result := none, sql_query := none}, [], {}) :=
  ⟨rfl, (C2_run_error_boundary envC2 "show customers" [] {}).1
      "Connection refused" rfl⟩

/-- Counterexample to claim C3 as stated: when the model reply is a
well-formed mapping that itself carries a partial breakdown, dict.update
replaces the default breakdown wholesale, so the resulting breakdown lacks
the entities, conditions and timeframe keys. -/
theorem C3_counterexample :
    dictGet (check_relevance "how many transactions"
        (Except.ok (some (JValue.obj
          [("breakdown", JValue.obj [("intent", JValue.str "count")])]))))
        "breakdown"
      = some (JValue.obj [("intent", JValue.str "count")])
    ∧ dictHasKey [("intent", JValue.str "count")] "entities" = false
    ∧ dictHasKey [("intent", JValue.str "count")] "conditions" = false
    ∧ dictHasKey [("intent", JValue.str "count")] "timeframe" = false := by
  refine ⟨rfl, rfl, rfl, rfl⟩

/-- Claim C3 as amended: the breakdown of the classifier result is the
complete default mapping with all four keys whenever the model call fails,
the reply fails to parse, the parsed reply is not a mapping, or it is a
mapping without a breakdown key of its own; only a mapping that supplies
its own breakdown entry replaces the default (wholesale, the previous
counterexample). -/
theorem C3_amended_breakdown_defaults (q : String) (e : String)
    (fields : Dict) (v : JValue)
    (hnb : dictHasKey fields "breakdown" = false)
    (hnotobj : isObj v = false) :
    dictGet (check_relevance q (Except.error e)) "breakdown"
        = some (JValue.obj defaultBreakdown)
    ∧ dictGet (check_relevance q (Except.ok none)) "breakdown"
        = some (JValue.obj defaultBreakdown)
    ∧ dictGet (check_relevance q (Except.ok (some v))) "breakdown"
        = some (JValue.obj defaultBreakdown)
    ∧ dictGet (check_relevance q (Except.ok (some (JValue.obj fields))))
        "breakdown"
        = some (JValue.obj defaultBreakdown)
    ∧ dictHasKey defaultBreakdown "intent" = true
    ∧ dictHasKey defaultBreakdown "entities" = true
    ∧ dictHasKey defaultBreakdown "conditions" = true
    ∧ dictHasKey defaultBreakdown "timeframe" = true := by
  refine ⟨rfl, rfl, ?_, ?_, rfl, rfl, rfl, rfl⟩
  · cases v <;> simp_all [check_relevance, isObj] <;> rfl
  · show dictGet (dictUpdate default_response fields) "breakdown"
      = some (JValue.obj defaultBreakdown)
    rw [dictGet_dictUpdate_not_hasKey fields default_response "breakdown" hnb]
    rfl

/-- Witness for the amended C3 at a concrete mapping without a breakdown
entry and a concrete non-mapping reply. -/
theorem C3_amended_breakdown_defaults_witness :
    dictHasKey [("relevant", JValue.bool true)] "breakdown" = false
    ∧ isObj (JValue.str "not a mapping") = false
    ∧ dictGet (check_relevance "list customers"
        (Except.ok (some (JValue.obj [("relevant", JValue.bool true)]))))
        "breakdown"
      = some (JValue.obj defaultBreakdown) :=
  ⟨rfl, rfl,
   (C3_amended_breakdown_defaults "list customers" "err"
      [("relevant", JValue.bool true)] (JValue.str "not a mapping")
      rfl rfl).2.2.2.1⟩

/-- Counterexample to claim C7 as stated: a reply that parses but is not a
mapping does not yield an explanatory message citing the parse failure; it
yields the unmodified default response, whose explanation is the literal
"No explanation provided" (tools.py lines 59-61 return default_response
unchanged on a non-dict reply). -/
theorem C7_counterexample :
    check_relevance "list customers"
        (Except.ok (some (JValue.str "I cannot answer that")))
      = default_response
    ∧ dictGet (check_relevance "list customers"
        (Except.ok (some (JValue.str "I cannot answer that")))) "explanation"
      = some (JValue.str "No explanation provided")
    ∧ containsStr "No explanation provided" "parse" = false
    ∧ containsStr "No explanation provided" "Parse" = false
    ∧ containsStr "No explanation provided" "fail" = false
    ∧ containsStr "No explanation provided" "Fail" = false
    ∧ containsStr "No explanation provided" "error" = false
    ∧ containsStr "No explanation provided" "Error" = false := by
  refine ⟨rfl, rfl, by decide, by decide, by decide, by decide, by decide, by decide⟩

/-- Claim C7 as amended: the classifier is total and returns, for a parse
failure the defaults with explanation "Failed to parse response", for a
parsed non-mapping the unmodified default response (explanation "No
explanation provided", not a message citing the parse failure), for a
model-call failure the defaults with explanation "Error: " plus the
message, and for a parsed mapping the merge onto the defaults, under which
every key missing from the reply falls back to its default; the default
response always carries relevant=false. -/
theorem C7_amended_classifier_total (q : String) (e : String) (v : JValue)
    (fields : Dict) (k : String)
    (hnotobj : isObj v = false)
    (hk : dictHasKey fields k = false) :
    check_relevance q (Except.ok none)
        = defaultResponseWith "Failed to parse response"
    ∧ check_relevance q (Except.ok (some v)) = default_response
    ∧ check_relevance q (Except.error e)
        = defaultResponseWith ("Error: " ++ e)
    ∧ check_relevance q (Except.ok (some (JValue.obj fields)))
        = dictUpdate default_response fields
    ∧ dictGet (check_relevance q (Except.ok (some (JValue.obj fields)))) k
        = dictGet default_response k
    ∧ (∀ expl, dictGet (defaultResponseWith expl) "relevant"
        = some (JValue.bool false)) := by
  refine ⟨rfl, ?_, rfl, rfl, ?_, fun expl => rfl⟩
  · cases v <;> simp_all [check_relevance, isObj]
  · show dictGet (dictUpdate default_response fields) k = dictGet default_response k
    exact dictGet_dictUpdate_not_hasKey fields default_response k hk

/-- Witness for the amended C7 at a concrete non-mapping reply and a
concrete mapping missing the tables key. -/
theorem C7_amended_classifier_total_witness :
    isObj (JValue.arr [JValue.str "remitTransactions"]) = false
    ∧ dictHasKey [("relevant", JValue.bool true)] "tables" = false
    ∧ dictGet (check_relevance "list customers"
        (Except.ok (some (JValue.obj [("relevant", JValue.bool true)]))))
        "tables"
      = dictGet default_response "tables" :=
  ⟨rfl, rfl,
   (C7_amended_classifier_total "list customers" "err"
      (JValue.arr [JValue.str "remitTransactions"])
      [("relevant", JValue.bool true)] "tables" rfl rfl).2.2.2.2.1⟩

/-- Oracle for the C1 counterexample: the classifier answers relevant=false
with a non-empty explanation and the graph runs normally. -/
def envC1 : Env :=
  {relevanceOutcome := .ok (some (.obj
     [("relevant", .bool false),
      ("explanation", .str "This question is not related to the database schema")])),
   sqlOutcome := .ok "SELECT 1", dbExec := .ok ([], []), dbCommit := .ok (),
   formatOutcome := .ok "formatted", invokeFault := none}

/-- Counterexample to claim C1 as stated: on an irrelevant question the
final query_result is the untouched initial empty string, not the
classifier explanation — the irrelevant edge goes straight to END and no
node ever copies the explanation into query_result. -/
theorem C1_counterexample :
    dictGetD (check_relevance "What is the weather today" envC1.relevanceOutcome)
        "relevant" (JValue.bool false) = JValue.bool false
    ∧ dictGet (check_relevance "What is the weather today" envC1.relevanceOutcome)
        "explanation"
      = some (JValue.str "This question is not related to the database schema")
    ∧ (run envC1 "What is the weather today" [] {}).1.query_result = ""
    ∧ ¬ (run envC1 "What is the weather today" [] {}).1.query_result
        = "This question is not related to the database schema" := by
  refine ⟨rfl, rfl, rfl, by decide⟩

/-- Claim C1 as amended: for every question whose relevance classification
is falsy, run returns query_result equal to the untouched initial empty
string (the explanation is only available inside relevance_result),
sql_query stays empty, the monitor log holds exactly the one
check_relevance record, so the synthesis and execution stages are never
invoked, and the database session is untouched. -/
theorem C1_amended_irrelevant_skips (env : Env) (q : String)
    (sess : SessionLog) (hf : env.invokeFault = none)
    (hrel : truthy (dictGetD (check_relevance q env.relevanceOutcome)
              "relevant" (JValue.bool false)) = false) :
    (run env q [] sess).1.query_result = ""
    ∧ (run env q [] sess).1.sql_query = some ""
    ∧ (run env q [] sess).1.relevance_result
        = some (check_relevance q env.relevanceOutcome)
    ∧ (run env q [] sess).2.1
        = [{tool_name := "check_relevance", inputs := [],
            outputs := JValue.obj (check_relevance q env.relevanceOutcome)}]
    ∧ (∀ inv ∈ (run env q [] sess).2.1,
        ¬ inv.tool_name = "convert_to_sql"
        ∧ ¬ inv.tool_name = "execute_sql_query")
    ∧ (run env q [] sess).2.2 = sess := by
  have hrun : run env q [] sess
      = ({query_result := "",
          relevance_result := some (check_relevance q env.relevanceOutcome),
          sql_query := some ""},
         [{tool_name := "check_relevance", inputs := [],
           outputs := JValue.obj (check_relevance q env.relevanceOutcome)}],
         sess) := by
    simp [run, hf, workflow_invoke, check_relevance_node, relevance_condition,
          initial_state, toolMonitorCall, hrel]
  rw [hrun]
  refine ⟨rfl, rfl, rfl, rfl, ?_, rfl⟩
  intro inv hinv
  rw [List.mem_singleton] at hinv
  rw [hinv]
  exact ⟨by simp, by simp⟩

/-- Witness for the amended C1 at the concrete irrelevant classifier
reply of envC1. -/
theorem C1_amended_irrelevant_skips_witness :
    envC1.invokeFault = none
    ∧ truthy (dictGetD (check_relevance "What time is it" envC1.relevanceOutcome)
        "relevant" (JValue.bool false)) = false
    ∧ (run envC1 "What time is it" [] {}).1.query_result = ""
    ∧ (run envC1 "What time is it" [] {}).1.sql_query = some "" :=
  ⟨rfl, rfl,
   (C1_amended_irrelevant_skips envC1 "What time is it" {} rfl rfl).1,
   (C1_amended_irrelevant_skips envC1 "What time is it" {} rfl rfl).2.1⟩

/-- Oracle for the C5 counterexample: a relevant question, a synthesized
select, and a driver that raises on execution. -/
def envC5 : Env :=
  {relevanceOutcome := .ok (some (.obj [("relevant", .bool true)])),
   sqlOutcome := .ok "SELECT amount FROM remitTransactions",
   dbExec := .error "Invalid column name amount",
   dbCommit := .ok (), formatOutcome := .ok "Sorry, the query failed.",
   invokeFault := none}

/-- Counterexample to claim C5 as stated: after a failed execution the
state carries the driver text in query_result, but the context passed to
the response formatter consists only of rows, columns, success and
question — the driver failure text does not occur anywhere in it. -/
theorem C5_counterexample :
    (state_after_execute envC5 "list transaction amounts" {}).sql_error = true
    ∧ (state_after_execute envC5 "list transaction amounts" {}).query_result
      = "Error: Invalid column name amount"
    ∧ pipelineFormatterInput envC5 "list transaction amounts" {}
      = {rows := [], columns := [], success := false,
         question := "list transaction amounts"}
    ∧ ctxMentions (pipelineFormatterInput envC5 "list transaction amounts" {})
        "Invalid column name amount" = false := by
  refine ⟨rfl, rfl, rfl, by decide⟩

/-- Claim C5 as amended: for every run in which SQL execution fails, the
state after the execute stage has sql_error=true, empty query_rows and
columns, and query_result holding "Error: " plus the driver failure text;
the context passed to the response formatter carries only the degraded
success=false flag together with the empty rows and columns and the
question — the driver failure text itself is not propagated into that
context. -/
theorem C5_amended_exec_failure (env : Env) (q : String) (sess : SessionLog)
    (s e : String) (hf : env.invokeFault = none)
    (hrel : truthy (dictGetD (check_relevance q env.relevanceOutcome)
              "relevant" (JValue.bool false)) = true)
    (hsql : env.sqlOutcome = Except.ok s) (hs : ¬ s = "")
    (hexec : env.dbExec = Except.error e) :
    (state_after_execute env q sess).sql_error = true
    ∧ (state_after_execute env q sess).query_rows = []
    ∧ (state_after_execute env q sess).columns = []
    ∧ (state_after_execute env q sess).query_result = "Error: " ++ e
    ∧ pipelineFormatterInput env q sess
      = {rows := [], columns := [], success := false, question := q} := by
  have hb : (s == "") = false := beq_eq_false_iff_ne.mpr hs
  have hstate : state_after_execute env q sess
      = {question := q,
         relevance_result := some (check_relevance q env.relevanceOutcome),
         sql_query := s, query_result := "Error: " ++ e, query_rows := [],
         columns := [], attempts := 0, sql_error := true} := by
    simp [state_after_execute, state_after_convert, state_after_check,
          execute_sql_node, convert_to_sql_node, check_relevance_node,
          convert_to_sql, initial_state, toolMonitorCall, pyStrTruthy,
          execute_sql_query, get_db, hsql, hexec, bne, hb]
  refine ⟨?_, ?_, ?_, ?_, ?_⟩ <;>
    simp [pipelineFormatterInput, formatterContext, hstate]

/-- Witness for the amended C5 at the concrete failing execution of
envC5. -/
theorem C5_amended_exec_failure_witness :
    envC5.sqlOutcome = Except.ok "SELECT amount FROM remitTransactions"
    ∧ envC5.dbExec = Except.error "Invalid column name amount"
    ∧ (state_after_execute envC5 "list transaction amounts" {}).query_result
      = "Error: Invalid column name amount"
    ∧ pipelineFormatterInput envC5 "list transaction amounts" {}
      = {rows := [], columns := [], success := false,
         question := "list transaction amounts"} :=
  ⟨rfl, rfl,
   (C5_amended_exec_failure envC5 "list transaction amounts" {}
      "SELECT amount FROM remitTransactions" "Invalid column name amount"
      rfl rfl rfl (by decide) rfl).2.2.2.1,
   (C5_amended_exec_failure envC5 "list transaction amounts" {}
      "SELECT amount FROM remitTransactions" "Invalid column name amount"
      rfl rfl rfl (by decide) rfl).2.2.2.2⟩

/-- Claim C6: whenever SQL synthesis yields an empty or absent query, the
execute stage does not execute anything but marks sql_error=true with
query_result "Failed to generate SQL query", and the pipeline still
proceeds linearly to the formatting stage: the run log holds exactly the
check_relevance, convert_to_sql and generate_human_readable records (no
execute_sql_query record), the session is untouched, and the final
query_result is the formatter response computed from the error context. -/
theorem C6_empty_sql_linear (env : Env) (q : String) (sess : SessionLog)
    (hf : env.invokeFault = none)
    (hrel : truthy (dictGetD (check_relevance q env.relevanceOutcome)
              "relevant" (JValue.bool false)) = true)
    (hsql : env.sqlOutcome = Except.ok ""
            ∨ ∃ e, env.sqlOutcome = Except.error e) :
    (state_after_execute env q sess).sql_error = true
    ∧ (state_after_execute env q sess).query_result
        = "Failed to generate SQL query"
    ∧ (run env q [] sess).2.1.map (fun inv => inv.tool_name)
        = ["check_relevance", "convert_to_sql", "generate_human_readable"]
    ∧ (run env q [] sess).2.2 = sess
    ∧ (run env q [] sess).1.query_result
        = generate_human_readable ""
            (formatterContext (state_after_execute env q sess))
            env.formatOutcome := by
  have hps : pyStrTruthy (convert_to_sql q
      (check_relevance q env.relevanceOutcome) env.sqlOutcome) = false := by
    rcases hsql with h | ⟨e, h⟩ <;> simp [convert_to_sql, pyStrTruthy, h]
  refine ⟨?_, ?_, ?_, ?_, ?_⟩ <;>
    simp [state_after_execute, state_after_convert, state_after_check,
          run, workflow_invoke, generate_node, execute_sql_node,
          convert_to_sql_node, check_relevance_node, relevance_condition,
          formatterContext, initial_state, toolMonitorCall, hf, hrel, hps]

/-- Oracle for the C6 witness: a relevant question whose SQL synthesis
call fails. -/
def envC6 : Env :=
  {relevanceOutcome := .ok (some (.obj [("relevant", .bool true)])),
   sqlOutcome := .error "rate limit exceeded",
   dbExec := .ok ([], []), dbCommit := .ok (),
   formatOutcome := .ok "I could not build a query for that question.",
   invokeFault := none}

/-- Witness for C6 at the concrete failing synthesis of envC6. -/
theorem C6_empty_sql_linear_witness :
    envC6.sqlOutcome = Except.error "rate limit exceeded"
    ∧ (state_after_execute envC6 "total amount in January" {}).query_result
      = "Failed to generate SQL query"
    ∧ (run envC6 "total amount in January" [] {}).2.1.map
        (fun inv => inv.tool_name)
      = ["check_relevance", "convert_to_sql", "generate_human_readable"] :=
  ⟨rfl,
   (C6_empty_sql_linear envC6 "total amount in January" {} rfl rfl
      (Or.inr ⟨"rate limit exceeded", rfl⟩)).2.1,
   (C6_empty_sql_linear envC6 "total amount in January" {} rfl rfl
      (Or.inr ⟨"rate limit exceeded", rfl⟩)).2.2.1⟩

theorem toolMonitorCall_all_inputs_isEmpty (name : String)
    (args : List JValue) (func : List JValue → Dict → Except String JValue)
    (log : List ToolInvocation)
    (h : log.all (fun inv => inv.inputs.isEmpty) = true) :
    ((toolMonitorCall name args [] func log).2.all
      (fun inv => inv.inputs.isEmpty)) = true := by
  cases hf : func args [] <;>
    simp [toolMonitorCall, hf, List.all_append, h]

theorem check_relevance_node_all_inputs (env : Env) (s : PipelineState)
    (log : List ToolInvocation)
    (h : log.all (fun inv => inv.inputs.isEmpty) = true) :
    ((check_relevance_node env s log).2.all
      (fun inv => inv.inputs.isEmpty)) = true := by
  simp [check_relevance_node, toolMonitorCall, List.all_append, h]

theorem convert_to_sql_node_all_inputs (env : Env) (s : PipelineState)
    (log : List ToolInvocation)
    (h : log.all (fun inv => inv.inputs.isEmpty) = true) :
    ((convert_to_sql_node env s log).2.all
      (fun inv => inv.inputs.isEmpty)) = true := by
  simp [convert_to_sql_node, toolMonitorCall, List.all_append, h]

theorem generate_node_all_inputs (env : Env) (s : PipelineState)
    (log : List ToolInvocation)
    (h : log.all (fun inv => inv.inputs.isEmpty) = true) :
    ((generate_node env s log).2.all
      (fun inv => inv.inputs.isEmpty)) = true := by
  simp [generate_node, toolMonitorCall, List.all_append, h]

theorem execute_sql_node_all_inputs (env : Env) (s : PipelineState)
    (log : List ToolInvocation) (sess : SessionLog)
    (h : log.all (fun inv => inv.inputs.isEmpty) = true) :
    ((execute_sql_node env s log sess).2.1.all
      (fun inv => inv.inputs.isEmpty)) = true := by
  unfold execute_sql_node
  split
  · simpa using h
  · split
    · split <;> simp [toolMonitorCall, List.all_append, h]
    · simp [toolMonitorCall, List.all_append, h]

theorem run_log_all_inputs_isEmpty (env : Env) (q : String)
    (sess : SessionLog) :
    ((run env q [] sess).2.1.all (fun inv => inv.inputs.isEmpty)) = true := by
  cases hf : env.invokeFault with
  | some e => simp [run, hf]
  | none =>
    simp only [run, hf]
    by_cases hC : relevance_condition
        (check_relevance_node env (initial_state q) []).1
    · simp only [workflow_invoke, hC, if_true]
      exact generate_node_all_inputs _ _ _
        (execute_sql_node_all_inputs _ _ _ _
          (convert_to_sql_node_all_inputs _ _ _
            (check_relevance_node_all_inputs _ _ _ rfl)))
    · simp only [workflow_invoke, hC, if_false]
      exact check_relevance_node_all_inputs _ _ _ rfl

/-- Claim C10: the invocation recorder stores only the keyword arguments
of a call as the inputs mapping of the appended record (positional
arguments are not recorded), and since the orchestrator invokes every
stage tool with positional arguments only, every record captured during a
pipeline run has an empty inputs mapping. -/
theorem C10_inputs_only_kwargs (env : Env) (q : String) (sess : SessionLog)
    (tool_name : String) (args : List JValue) (kwargs : Dict)
    (func : List JValue → Dict → Except String JValue)
    (log : List ToolInvocation) :
    (toolMonitorCall tool_name args kwargs func log).2.map
        (fun inv => inv.inputs)
      = log.map (fun inv => inv.inputs) ++ [kwargs]
    ∧ ((run env q [] sess).2.1.all (fun inv => inv.inputs.isEmpty)) = true := by
  constructor
  · cases hf : func args kwargs <;> simp [toolMonitorCall, hf]
  · exact run_log_all_inputs_isEmpty env q sess

end RemitAgent
